import Mathlib

/-!
Verification of the zsh-edit-select selection-monitor backends.

This file gives a shallow embedding of the two C backends
(impl-x11/backends/x11/zes-x11-selection-monitor.c and
impl-wayland/backends/wayland/zes-wl-selection-monitor.c) and proves or
refutes the frozen claims about them.  Bytes are modelled as Nat,
payloads as List Nat, and the cache directory as a record of optional
file contents.  Protocol inputs that the daemon receives from the
windowing server (selection events, bytes delivered over a pipe, X
events pending per loop iteration) are modelled as explicit parameters,
so every definition is executable.
-/

/-- Contents of the cache rendezvous directory: the files primary, seq
and monitor.pid.  none means the file does not exist. -/
structure FS where
  primary : Option (List Nat)
  seq : Option String
  pid : Option Nat
deriving DecidableEq, Repr

/-- The empty cache directory, before the daemon has written anything. -/
def fsInit : FS := { primary := none, seq := none, pid := none }

/-- On-disk content of the seq file for counter value n: the decimal
value followed by a newline, as written by snprintf("%lu\n", seq). -/
def seqContent (n : Nat) : String := toString n ++ "\n"

/-- The individual file operations performed by write_primary, in order.
openPrimary and openSeq are open(O_WRONLY|O_CREAT|O_TRUNC), which
truncates the file to empty. -/
inductive FileOp where
  | openPrimary : FileOp
  | writePrim : List Nat → FileOp
  | closePrimary : FileOp
  | openSeq : FileOp
  | writeSeq : Nat → FileOp
  | closeSeq : FileOp
deriving DecidableEq, Repr

/-- Effect of one file operation on the cache directory. -/
def applyOp (fs : FS) (op : FileOp) : FS :=
  match op with
  | FileOp.openPrimary => { fs with primary := some [] }
  | FileOp.writePrim d => { fs with primary := some d }
  | FileOp.closePrimary => fs
  | FileOp.openSeq => { fs with seq := some "" }
  | FileOp.writeSeq n => { fs with seq := some (seqContent n) }
  | FileOp.closeSeq => fs

/-- Run a list of file operations from a starting state. -/
def runFS (fs : FS) (ops : List FileOp) : FS := ops.foldl applyOp fs

/-- All intermediate cache states reached while running the operations,
including the initial state. -/
def statesOf (fs : FS) (ops : List FileOp) : List FS := ops.scanl applyOp fs

/-- Trace of file operations performed by write_primary(data, len, seq)
in both backends (the two C functions are line-for-line identical).
openPrimOk and openSeqOk say whether the two open calls succeed.  If
the primary open fails the function returns at once; the write is
skipped when len is 0; if the seq open fails the seq part is skipped. -/
def write_primary_trace (openPrimOk openSeqOk : Bool) (data : List Nat)
    (seq : Nat) : List FileOp :=
  if !openPrimOk then []
  else
    (FileOp.openPrimary ::
      (if data.length > 0 then [FileOp.writePrim data] else []) ++
      [FileOp.closePrimary]) ++
    (if openSeqOk then [FileOp.openSeq, FileOp.writeSeq seq, FileOp.closeSeq]
     else [])

/-- Cache state after a successful write_primary(data, len, seq): the
success path of the trace, as used by the daemon models below. -/
def write_primary_fs (fs : FS) (data : List Nat) (seq : Nat) : FS :=
  runFS fs (write_primary_trace true true data seq)

/-- Operations touching the primary file. -/
def isPrimOp : FileOp → Bool
  | FileOp.openPrimary => true
  | FileOp.writePrim _ => true
  | FileOp.closePrimary => true
  | _ => false

/-- Operations touching the seq file. -/
def isSeqOp : FileOp → Bool
  | FileOp.openSeq => true
  | FileOp.writeSeq _ => true
  | FileOp.closeSeq => true
  | _ => false

/-- 1 MiB cap on PRIMARY payloads (both backends) and, in the X11
backend, on clipboard payloads as well. -/
def MAX_SELECTION_SIZE : Nat := 1024 * 1024

/-- 4 MiB cap on clipboard payloads in the Wayland backend. -/
def MAX_CLIPBOARD_SIZE : Nat := 4 * 1024 * 1024

/-- Loop body of read_fd_with_timeout in the Wayland backend.  chunks
is the list of byte counts delivered by the successive successful
read(2) calls on the pipe (each at most 4096; the list ends where the
real loop would see EOF, a poll timeout, or an error).  Returns the
final total.  Before each read the buffer is grown: capacity starts at
0, becomes 4096, then doubles; if the doubled capacity would exceed
max_size the loop breaks, truncating the payload. -/
def read_fd_loop (max_size : Nat) : List Nat → Nat → Nat → Nat
  | [], total, _ => total
  | n :: rest, total, capacity =>
    if total + 4096 > capacity then
      let capacity2 := if capacity = 0 then 4096 else capacity * 2
      if capacity2 > max_size then total
      else if n > 0 then read_fd_loop max_size rest (total + n) capacity2
      else total
    else if n > 0 then read_fd_loop max_size rest (total + n) capacity
    else total

/-- Number of bytes returned by read_fd_with_timeout(fd, out_len,
max_size, timeout) when the pipe delivers the given chunks. -/
def read_fd_with_timeout (chunks : List Nat) (max_size : Nat) : Nat :=
  read_fd_loop max_size chunks 0 0

/-- Loop body of read_all_stdin (both backends; they differ only in the
cap).  capacity starts at 4096 and doubles; if the doubled capacity
would exceed max_size the loop breaks. -/
def read_all_stdin_loop (max_size : Nat) : List Nat → Nat → Nat → Nat
  | [], total, _ => total
  | n :: rest, total, capacity =>
    if total + 4096 > capacity then
      if capacity * 2 > max_size then total
      else if n > 0 then read_all_stdin_loop max_size rest (total + n) (capacity * 2)
      else total
    else if n > 0 then read_all_stdin_loop max_size rest (total + n) capacity
    else total

/-- Bytes read from standard input by the Wayland backend's
read_all_stdin, capped by MAX_CLIPBOARD_SIZE. -/
def wl_read_all_stdin (chunks : List Nat) : Nat :=
  read_all_stdin_loop MAX_CLIPBOARD_SIZE chunks 0 4096

/-- Bytes read from standard input by the X11 backend's read_all_stdin,
capped by MAX_SELECTION_SIZE (1 MiB, not 4 MiB). -/
def x11_read_all_stdin (chunks : List Nat) : Nat :=
  read_all_stdin_loop MAX_SELECTION_SIZE chunks 0 4096

/-- Number of bytes of selection payload copied by the X11 backend's
get_selection / get_primary_selection: XGetWindowProperty is bounded to
MAX_SELECTION_SIZE / 4 32-bit units, so at most MAX_SELECTION_SIZE
bytes of an 8-bit-format property are returned. -/
def x11_get_selection_len (available : Nat) : Nat :=
  min available ((MAX_SELECTION_SIZE / 4) * 4)

/-- unlink(primary_path). -/
def unlink_primary (fs : FS) : FS := { fs with primary := none }

/-- unlink(seq_path). -/
def unlink_seq (fs : FS) : FS := { fs with seq := none }

/-- unlink(pid_path). -/
def unlink_pid (fs : FS) : FS := { fs with pid := none }

/-- The three unlink calls executed after the daemon event loop returns,
in source order: primary, then seq, then monitor.pid. -/
def daemon_cleanup (fs : FS) : FS := unlink_pid (unlink_seq (unlink_primary fs))

/-! ## X11 backend (impl-x11/backends/x11/zes-x11-selection-monitor.c) -/

namespace X11

/-- check_and_update_primary: the selection reader's result is passed in
as readResult (none models a NULL return: no owner, refused target, or
empty property).  The sequence counter is always incremented and the
result always published, with NULL mapped to the empty payload. -/
def check_and_update_primary (readResult : Option (List Nat)) (seq : Nat)
    (fs : FS) : Nat × FS :=
  let seq2 := seq + 1
  (seq2, write_primary_fs fs (readResult.getD []) seq2)

/-- run_oneshot: returns (exit code, bytes written to standard output).
Exit 0 with output only when the reader returned non-NULL, nonempty
data; exit 1 with no output otherwise. -/
def run_oneshot (readResult : Option (List Nat)) : Nat × List Nat :=
  match readResult with
  | some d => if d.length > 0 then (0, d) else (1, [])
  | none => (1, [])

/-- One event taken from the X event queue in the daemon loop.  A
primaryNotify is an XFixesSelectionNotify for PRIMARY, bundled with the
bytes the subsequent selection read returns. -/
inductive XEvent where
  | primaryNotify : Option (List Nat) → XEvent
  | otherEvent : XEvent
deriving DecidableEq, Repr

/-- Body of the daemon event loop: only XFixesSelectionNotify for
PRIMARY triggers check_and_update_primary. -/
def daemon_step (acc : Nat × FS) (ev : XEvent) : Nat × FS :=
  match ev with
  | XEvent.primaryNotify r => check_and_update_primary r acc.1 acc.2
  | XEvent.otherEvent => acc

/-- run_daemon up to the point where the loop returns: seeds the counter
with time(NULL) = T, publishes ("", T), writes the pid file, performs
the pre-loop check_and_update_primary (with reader result startupRead),
then handles the queued events until the signal flag stops the loop. -/
def run_daemon_loop (T pid : Nat) (startupRead : Option (List Nat))
    (events : List XEvent) : Nat × FS :=
  let fs1 := write_primary_fs fsInit [] T
  let fs2 := { fs1 with pid := some pid }
  events.foldl daemon_step (check_and_update_primary startupRead T fs2)

/-- run_daemon including the clean-shutdown unlinks after the loop. -/
def run_daemon (T pid : Nat) (startupRead : Option (List Nat))
    (events : List XEvent) : Nat × FS :=
  let st := run_daemon_loop T pid startupRead events
  (st.1, daemon_cleanup st.2)

/-- Events drained from XPending in one iteration of the copy-clipboard
child's serve loop. -/
inductive CopyEvent where
  | request : CopyEvent
  | selClear : CopyEvent
  | otherEvent : CopyEvent
deriving DecidableEq, Repr

/-- State of the copy-clipboard child's serve loop. -/
structure CopyState where
  running : Bool
  timeout_count : Nat
  selection_served : Bool
deriving DecidableEq, Repr

/-- Initial state on entering the serve loop. -/
def copy_init : CopyState :=
  { running := true, timeout_count := 0, selection_served := false }

/-- Inner while(XPending) loop: serve SelectionRequest (set
selection_served, reset timeout_count), stop on SelectionClear. -/
def copy_drain (evs : List CopyEvent) (s : CopyState) : CopyState :=
  match evs with
  | [] => s
  | ev :: rest =>
    if s.running = false then s
    else
      match ev with
      | CopyEvent.request =>
          copy_drain rest { s with selection_served := true, timeout_count := 0 }
      | CopyEvent.selClear => { s with running := false }
      | CopyEvent.otherEvent => copy_drain rest s

/-- Why the serve loop stopped looking at the schedule. -/
inductive CopyExit where
  | timedOut : CopyExit
  | cleared : CopyExit
  | scheduleEnd : CopyExit
deriving DecidableEq, Repr

/-- The copy-clipboard child's serve loop in the impl-x11 backend.  Each
schedule entry is the list of X events pending during one 100 ms
iteration.  The loop runs while running and timeout_count below 500, and
increments timeout_count after an iteration only when selection_served
is still false.  When the schedule is exhausted the final condition
check reports how the loop would proceed. -/
def copy_loop (sched : List (List CopyEvent)) (s : CopyState) :
    CopyState × CopyExit :=
  match sched with
  | [] =>
    if s.running = false then (s, CopyExit.cleared)
    else if s.timeout_count < 500 then (s, CopyExit.scheduleEnd)
    else (s, CopyExit.timedOut)
  | evs :: rest =>
    if s.running = false then (s, CopyExit.cleared)
    else if ¬ s.timeout_count < 500 then (s, CopyExit.timedOut)
    else
      let s2 := copy_drain evs s
      if s2.running = false then (s2, CopyExit.cleared)
      else
        let s3 := if s2.selection_served = false
                  then { s2 with timeout_count := s2.timeout_count + 1 }
                  else s2
        copy_loop rest s3

/-- run_copy_clipboard in the impl-x11 backend, up to the fork: result
is (parent exit code, whether a serving child was forked).  own_ok says
XGetSelectionOwner confirmed ownership, fork_ok that fork succeeded.
Oversized standard input is truncated by x11_read_all_stdin, not
rejected. -/
def run_copy_clipboard (stdin_chunks : List Nat) (own_ok fork_ok : Bool) :
    Nat × Bool :=
  let len := x11_read_all_stdin stdin_chunks
  if len = 0 then (1, false)
  else if own_ok = false then (1, false)
  else if fork_ok = false then (1, false)
  else (0, true)

end X11

/-! ## Wayland backend (impl-wayland/backends/wayland/zes-wl-selection-monitor.c) -/

namespace WL

/-- Process-wide daemon state: the sequence counter, the
last_known_content cache, the tracked primary-selection offer (by id),
the ps_has_text flag, the cache directory, and the ids of offers that
have been destroyed. -/
structure State where
  seq_counter : Nat
  last_known_content : Option (List Nat)
  current_ps_offer : Option Nat
  ps_has_text : Bool
  fs : FS
  destroyed : List Nat
deriving DecidableEq, Repr

/-- last_known_content after a publish of sel: cached only when sel is
non-NULL and nonempty (the malloc is assumed to succeed). -/
def updateLastKnown (sel : Option (List Nat)) : Option (List Nat) :=
  match sel with
  | some l => if l.length > 0 then some l else none
  | none => none

/-- Offer bookkeeping at the top of ps_device_handle_selection: the
previous current offer, if any and different, is destroyed; the new
offer becomes current. -/
def offer_replace (s : State) (offer : Option Nat) : State :=
  match s.current_ps_offer with
  | some c =>
    if offer ≠ some c then
      { s with current_ps_offer := offer, destroyed := c :: s.destroyed }
    else { s with current_ps_offer := offer }
  | none => { s with current_ps_offer := offer }

/-- ps_device_handle_selection in daemon mode.  offer is the event's
offer id (none for a cleared selection); hasText is the value
ps_has_text holds after the data_offer and MIME offer callbacks that
preceded a non-null selection event; readResult is what read_ps_offer
returns (none models a NULL buffer).  The counter is incremented on
every event, but write_primary runs only when the content differs from
last_known_content (then under a second increment) or when a cleared or
text-less selection replaces known content. -/
def ps_device_handle_selection (s : State) (offer : Option Nat)
    (hasText : Bool) (readResult : Option (List Nat)) : State :=
  let s0 := if offer.isSome then { s with ps_has_text := hasText } else s
  let s1 := offer_replace s0 offer
  let s2 := { s1 with seq_counter := s1.seq_counter + 1 }
  if offer = none ∨ s2.ps_has_text = false then
    match s2.last_known_content with
    | some _ =>
      { s2 with seq_counter := s2.seq_counter + 1,
                fs := write_primary_fs s2.fs [] (s2.seq_counter + 1),
                last_known_content := none }
    | none => s2
  else
    let sel := readResult
    if sel = s2.last_known_content then s2
    else
      { s2 with seq_counter := s2.seq_counter + 1,
                fs := write_primary_fs s2.fs (sel.getD []) (s2.seq_counter + 1),
                last_known_content := updateLastKnown sel }

/-- check_and_update_primary, the 50 ms poll-timeout re-read: when a
current offer with text exists, the counter is always incremented and
the read result always published, identical content included; without
one, known content is cleared with a publish of the empty payload. -/
def check_and_update_primary (s : State) (readResult : Option (List Nat)) :
    State :=
  if s.current_ps_offer = none ∨ s.ps_has_text = false then
    match s.last_known_content with
    | some _ =>
      { s with seq_counter := s.seq_counter + 1,
               fs := write_primary_fs s.fs [] (s.seq_counter + 1),
               last_known_content := none }
    | none => s
  else
    let sel := readResult
    { s with seq_counter := s.seq_counter + 1,
             fs := write_primary_fs s.fs (sel.getD []) (s.seq_counter + 1),
             last_known_content := updateLastKnown sel }

/-- One iteration's worth of input to the Wayland daemon loop: either a
dispatched selection event, a 50 ms poll timeout (with the bytes a
re-read would deliver), or some other dispatched event. -/
inductive DaemonEvent where
  | selection : Option Nat → Bool → Option (List Nat) → DaemonEvent
  | pollTimeout : Option (List Nat) → DaemonEvent
  | otherEvent : DaemonEvent

/-- Dispatch of one daemon-loop input.  On a poll timeout the current
offer is re-read only when one exists and advertises text. -/
def daemon_step (s : State) (ev : DaemonEvent) : State :=
  match ev with
  | DaemonEvent.selection offer ht r => ps_device_handle_selection s offer ht r
  | DaemonEvent.pollTimeout r =>
    if s.current_ps_offer.isSome && s.ps_has_text
    then check_and_update_primary s r else s
  | DaemonEvent.otherEvent => s

/-- Daemon state just after startup: counter seeded with time(NULL) = T,
initial publish of the empty payload, pid file written. -/
def init_state (T pid : Nat) : State :=
  { seq_counter := T, last_known_content := none, current_ps_offer := none,
    ps_has_text := false,
    fs := { write_primary_fs fsInit [] T with pid := some pid },
    destroyed := [] }

/-- run_daemon up to the point where the event loop returns. -/
def run_daemon_loop (T pid : Nat) (events : List DaemonEvent) : State :=
  events.foldl daemon_step (init_state T pid)

/-- run_daemon including the clean-shutdown unlinks after the loop. -/
def run_daemon (T pid : Nat) (events : List DaemonEvent) : State :=
  let s := run_daemon_loop T pid events
  { s with fs := daemon_cleanup s.fs }

/-- Environment seen by run_oneshot: whether the connection and the
required globals are available, whether a selection offer with text is
current after dispatching (offer_present, has_text), what read_ps_offer
returns, and whether a cache directory argument was given and could be
created. -/
structure OneshotEnv where
  connect_ok : Bool
  have_ps_manager : Bool
  have_seat : Bool
  offer_present : Bool
  has_text : Bool
  readResult : Option (List Nat)
  cache_arg : Bool
  ensure_ok : Bool
deriving DecidableEq, Repr

/-- run_oneshot in the Wayland backend: returns (exit code, bytes
written to standard output, cache state).  After a successful
connection with the needed globals the function always returns 0,
whether or not any selection bytes were obtained. -/
def run_oneshot (env : OneshotEnv) (seq0 : Nat) (fs : FS) :
    Nat × List Nat × FS :=
  if env.connect_ok = false then (1, [], fs)
  else if env.have_ps_manager = false ∨ env.have_seat = false then (1, [], fs)
  else
    let have_cache := env.cache_arg && env.ensure_ok
    if env.offer_present && env.has_text then
      match env.readResult with
      | some d =>
        if d.length > 0 then
          (0, d, if have_cache then write_primary_fs fs d (seq0 + 1) else fs)
        else (0, [], fs)
      | none => (0, [], fs)
    else
      (0, [], if have_cache then write_primary_fs fs [] (seq0 + 1) else fs)

/-- run_copy_clipboard in the Wayland backend, up to the fork: result is
(parent exit code, whether a serving child was forked).  Oversized
standard input is truncated by wl_read_all_stdin, not rejected; only
empty input (or a failing connection, missing globals, or failing fork)
yields exit code 1. -/
def run_copy_clipboard (stdin_chunks : List Nat)
    (connect_ok have_globals fork_ok : Bool) : Nat × Bool :=
  let len := wl_read_all_stdin stdin_chunks
  if len = 0 then (1, false)
  else if connect_ok = false then (1, false)
  else if have_globals = false then (1, false)
  else if fork_ok = false then (1, false)
  else (0, true)

end WL

/-! ## Offer tracking common to both Wayland devices (claim C8) -/

/-- The two client-side actions the selection handlers perform on offer
objects, in execution order. -/
inductive OfferAction where
  | destroyOffer : Nat → OfferAction
  | setCurrent : Option Nat → OfferAction
deriving DecidableEq, Repr

/-- Tracking state for one device: the current offer and the offers
destroyed so far. -/
structure OfferTrack where
  current : Option Nat
  destroyed : List Nat
deriving DecidableEq, Repr

/-- The offer bookkeeping shared verbatim by ps_device_handle_selection
and dd_handle_selection: destroy the previous current offer when it
exists and differs from the delivered one, then make the delivered
offer current.  Returns the emitted actions in order together with the
new state. -/
def handle_selection_offer (t : OfferTrack) (offer : Option Nat) :
    List OfferAction × OfferTrack :=
  match t.current with
  | some c =>
    if offer ≠ some c then
      ([OfferAction.destroyOffer c, OfferAction.setCurrent offer],
       { current := offer, destroyed := c :: t.destroyed })
    else ([OfferAction.setCurrent offer], { t with current := offer })
  | none => ([OfferAction.setCurrent offer], { t with current := offer })

/-- Folding the handler over a sequence of selection events from an
arbitrary starting state. -/
def run_selection_from (t : OfferTrack) (events : List (Option Nat)) :
    OfferTrack :=
  events.foldl (fun t ev => (handle_selection_offer t ev).2) t

/-- Offer tracking over a device's whole lifetime, starting with no
current offer. -/
def run_selection_events (events : List (Option Nat)) : OfferTrack :=
  run_selection_from { current := none, destroyed := [] } events

/-! ## Claim C10: publish is a no-op on disk when the primary open fails -/

/-! ## Properties to check, phrased over the model -/

/-- The property claimed of one publish call from cache state fs: the
operation trace splits into a primary-file part followed by a seq-file
part, with the primary close preceding any seq operation; no
intermediate cache state shows the new seq value without the payload in
the primary file; and on the all-success path the final state holds
exactly the payload and the new seq line. -/
def publishOrderingSpec (pOk sOk : Bool) (data : List Nat) (n : Nat)
    (fs : FS) : Prop :=
  (∃ p q, write_primary_trace pOk sOk data n = p ++ q ∧
    (∀ op ∈ p, isPrimOp op = true) ∧
    (∀ op ∈ q, isSeqOp op = true) ∧
    (q ≠ [] → FileOp.closePrimary ∈ p)) ∧
  (∀ fs2 ∈ statesOf fs (write_primary_trace pOk sOk data n),
    fs2.seq = some (seqContent n) → fs2.primary = some data) ∧
  (pOk = true → sOk = true →
    runFS fs (write_primary_trace pOk sOk data n) =
      { fs with primary := some data, seq := some (seqContent n) })

/-- Bytes delivered by read_ps_offer, the Wayland PRIMARY offer read:
read_fd_with_timeout with MAX_SELECTION_SIZE. -/
def read_ps_offer_len (chunks : List Nat) : Nat :=
  read_fd_with_timeout chunks MAX_SELECTION_SIZE

/-- Bytes delivered by read_clip_offer, the Wayland clipboard offer
read: read_fd_with_timeout with MAX_CLIPBOARD_SIZE. -/
def read_clip_offer_len (chunks : List Nat) : Nat :=
  read_fd_with_timeout chunks MAX_CLIPBOARD_SIZE

/-- The payload bounds the code actually enforces, for any sequence of
pipe or stdin reads of at most 4096 bytes each: PRIMARY reads are
bounded by 1 MiB on both backends, clipboard reads by 4 MiB on the
Wayland backend but by 1 MiB on the X11 backend (whose read_all_stdin
and XGetWindowProperty both use MAX_SELECTION_SIZE). -/
def payloadCapsSpec (chunks : List Nat) (avail : Nat) : Prop :=
  read_ps_offer_len chunks ≤ MAX_SELECTION_SIZE ∧
  read_clip_offer_len chunks ≤ MAX_CLIPBOARD_SIZE ∧
  wl_read_all_stdin chunks ≤ MAX_CLIPBOARD_SIZE ∧
  x11_read_all_stdin chunks ≤ MAX_SELECTION_SIZE ∧
  x11_get_selection_len avail ≤ MAX_SELECTION_SIZE

/-- The offer-tracking invariant claimed of each device, over any
sequence of selection events whose non-null offers are pairwise
distinct objects: the tracked current offer has never been destroyed
(so it is the device's single live tracked offer), every offer
delivered earlier is either still current or has been destroyed, and
within one selection event the destroy of the previous offer is emitted
before the new offer becomes current. -/
def offerTrackingSpec (events : List (Option Nat)) : Prop :=
  (∀ c, (run_selection_events events).current = some c →
     c ∉ (run_selection_events events).destroyed) ∧
  (∀ o : Nat, some o ∈ events →
     (run_selection_events events).current = some o ∨
     o ∈ (run_selection_events events).destroyed) ∧
  (∀ (t : OfferTrack) (ev : Option Nat),
     (handle_selection_offer t ev).1 = [OfferAction.setCurrent ev] ∨
     ∃ c, t.current = some c ∧ ev ≠ some c ∧
       (handle_selection_offer t ev).1 =
         [OfferAction.destroyOffer c, OfferAction.setCurrent ev])

/-- A Wayland daemon state in which content [104, 105] is current, known
and published, used to exercise a byte-identical re-selection. -/
def c1State : WL.State :=
  { seq_counter := 100, last_known_content := some [104, 105],
    current_ps_offer := some 1, ps_has_text := true,
    fs := { primary := some [104, 105], seq := some (seqContent 100),
            pid := some 7 },
    destroyed := [] }

/-- The re-selection behavior the code actually has.  X11 backend: every
PRIMARY event increments the counter and publishes unconditionally.
Wayland backend: the 50 ms poll-timeout re-read (check_and_update_primary,
reached whenever an offer with text is current) increments and publishes
unconditionally, identical bytes included; the per-event selection
handler increments the counter on every event but skips the publish when
the bytes equal last_known_content. -/
def reselectionSpec : Prop :=
  (∀ (r : Option (List Nat)) (seq : Nat) (fs : FS),
    (X11.check_and_update_primary r seq fs).1 = seq + 1 ∧
    (X11.check_and_update_primary r seq fs).2.primary = some (r.getD []) ∧
    (X11.check_and_update_primary r seq fs).2.seq =
      some (seqContent (seq + 1))) ∧
  (∀ (s : WL.State) (r : Option (List Nat)),
    s.current_ps_offer.isSome = true → s.ps_has_text = true →
    (WL.check_and_update_primary s r).seq_counter = s.seq_counter + 1 ∧
    (WL.check_and_update_primary s r).fs.primary = some (r.getD []) ∧
    (WL.check_and_update_primary s r).fs.seq =
      some (seqContent (s.seq_counter + 1))) ∧
  (∀ (s : WL.State) (a : Nat) (r : Option (List Nat)),
    r = s.last_known_content →
    (WL.ps_device_handle_selection s (some a) true r).fs = s.fs ∧
    (WL.ps_device_handle_selection s (some a) true r).seq_counter =
      s.seq_counter + 1)

/-- Environment after a clear-primary: connection and globals fine, but
no selection offer is current. -/
def c4Env : WL.OneshotEnv :=
  { connect_ok := true, have_ps_manager := true, have_seat := true,
    offer_present := false, has_text := false, readResult := none,
    cache_arg := false, ensure_ok := false }

/-- The one-shot exit-code behavior the code actually has.  X11 backend:
exit 1 with no output when no bytes were obtained, exit 0 after writing
the bytes otherwise.  Wayland backend: exit 1 only when the connection
or a required global is missing; once connected with globals the mode
always exits 0, and when no offer is present it writes nothing. -/
def oneshotExitSpec : Prop :=
  (∀ d : List Nat, d ≠ [] → X11.run_oneshot (some d) = (0, d)) ∧
  (X11.run_oneshot none = (1, []) ∧ X11.run_oneshot (some []) = (1, [])) ∧
  (∀ (env : WL.OneshotEnv) (seq0 : Nat) (fs : FS),
    env.connect_ok = true → env.have_ps_manager = true →
    env.have_seat = true → (WL.run_oneshot env seq0 fs).1 = 0) ∧
  (∀ (env : WL.OneshotEnv) (seq0 : Nat) (fs : FS),
    env.offer_present = false → (WL.run_oneshot env seq0 fs).2.1 = [])

/-- The inactivity-timeout behavior the impl-x11 serve loop actually
has: once any request has been served, no schedule can make the loop
exit through the timeout (the counter is never incremented again); the
500-iteration (about 50 s) bound applies only while no request has ever
been served. -/
def copyTimeoutSpec : Prop :=
  (∀ (sched : List (List X11.CopyEvent)) (s : X11.CopyState),
    s.selection_served = true → s.timeout_count < 500 →
    (X11.copy_loop sched s).2 ≠ X11.CopyExit.timedOut) ∧
  (∀ n : Nat, 500 ≤ n →
    (X11.copy_loop (List.replicate n []) X11.copy_init).2 =
      X11.CopyExit.timedOut)

/-- The ASCII bytes of the payload used in scenario S1. -/
def helloBytes : List Nat := [104, 101, 108, 108, 111]

/-- What one "hello" event after daemon startup actually leaves in the
cache, for any seed T: the payload itself, under seq value T + 2.  On
the X11 path the pre-loop refresh publish uses T + 1 and the event
publish T + 2; on the Wayland path the selection handler increments
once on receipt and once more when publishing the changed content. -/
def firstEventSpec : Prop :=
  (∀ (T pid : Nat) (r0 : Option (List Nat)),
    (X11.run_daemon_loop T pid r0
        [X11.XEvent.primaryNotify (some helloBytes)]).2.primary =
      some helloBytes ∧
    (X11.run_daemon_loop T pid r0
        [X11.XEvent.primaryNotify (some helloBytes)]).2.seq =
      some (seqContent (T + 2)) ∧
    (X11.run_daemon_loop T pid r0
        [X11.XEvent.primaryNotify (some helloBytes)]).1 = T + 2) ∧
  (∀ T pid : Nat,
    (WL.run_daemon_loop T pid
        [WL.DaemonEvent.selection (some 1) true (some helloBytes)]).fs.primary =
      some helloBytes ∧
    (WL.run_daemon_loop T pid
        [WL.DaemonEvent.selection (some 1) true (some helloBytes)]).fs.seq =
      some (seqContent (T + 2)) ∧
    (WL.run_daemon_loop T pid
        [WL.DaemonEvent.selection (some 1) true (some helloBytes)]).seq_counter =
      T + 2)

/-- The copy-clipboard exit behavior the code actually has, on both
backends: exit 1 exactly when the bytes read from standard input are
empty (or the connection, globals, ownership or fork fail); any
nonempty input, the truncated oversize case included, leads to a forked
child and parent exit 0. -/
def copyCliSpec : Prop :=
  (∀ (chunks : List Nat) (c g f : Bool), wl_read_all_stdin chunks = 0 →
    WL.run_copy_clipboard chunks c g f = (1, false)) ∧
  (∀ chunks : List Nat, wl_read_all_stdin chunks ≠ 0 →
    WL.run_copy_clipboard chunks true true true = (0, true)) ∧
  (∀ (chunks : List Nat) (o f : Bool), x11_read_all_stdin chunks = 0 →
    X11.run_copy_clipboard chunks o f = (1, false)) ∧
  (∀ chunks : List Nat, x11_read_all_stdin chunks ≠ 0 →
    X11.run_copy_clipboard chunks true true = (0, true))

/-! ## Basic lemmas about the model -/

theorem write_primary_fs_eq (fs : FS) (data : List Nat) (seq : Nat) :
    write_primary_fs fs data seq =
      { fs with primary := some data, seq := some (seqContent seq) } := by
  cases data <;>
    simp [write_primary_fs, write_primary_trace, runFS, applyOp]

theorem seqContent_ne_empty (n : Nat) : seqContent n ≠ "" := by
  intro h
  have h1 := congrArg String.length h
  rw [seqContent, String.length_append] at h1
  have h2 : "\n".length = 1 := rfl
  have h3 : ("" : String).length = 0 := rfl
  omega

/-! ## Payload size caps and the bounded read loops (claim C3) -/

theorem read_all_stdin_loop_le (max_size : Nat) (chunks : List Nat)
    (total capacity : Nat) (hc : ∀ n ∈ chunks, n ≤ 4096)
    (h1 : total ≤ capacity) (h2 : capacity ≤ max_size)
    (h3 : 4096 ≤ capacity) :
    read_all_stdin_loop max_size chunks total capacity ≤ max_size := by
  induction chunks generalizing total capacity with
  | nil => simpa [read_all_stdin_loop] using le_trans h1 h2
  | cons n rest ih =>
    have hn : n ≤ 4096 := hc n (List.mem_cons_self n rest)
    have hrest : ∀ m ∈ rest, m ≤ 4096 := fun m hm =>
      hc m (List.mem_cons_of_mem n hm)
    rw [read_all_stdin_loop]
    by_cases hg : total + 4096 > capacity
    · simp only [hg, if_true]
      by_cases hd : capacity * 2 > max_size
      · simp only [hd, if_true]
        exact le_trans h1 h2
      · simp only [hd, if_false]
        by_cases hn0 : n > 0
        · simp only [hn0, if_true]
          exact ih (total + n) (capacity * 2) hrest (by omega)
            (by omega) (by omega)
        · simp only [hn0, if_false]
          exact le_trans h1 h2
    · simp only [hg, if_false]
      by_cases hn0 : n > 0
      · simp only [hn0, if_true]
        exact ih (total + n) capacity hrest (by omega) h2 h3
      · simp only [hn0, if_false]
        exact le_trans h1 h2

theorem read_fd_loop_le (max_size : Nat) (chunks : List Nat)
    (total capacity : Nat) (hc : ∀ n ∈ chunks, n ≤ 4096)
    (h1 : total ≤ capacity) (h2 : capacity ≤ max_size)
    (h3 : 4096 ≤ capacity) :
    read_fd_loop max_size chunks total capacity ≤ max_size := by
  induction chunks generalizing total capacity with
  | nil => simpa [read_fd_loop] using le_trans h1 h2
  | cons n rest ih =>
    have hn : n ≤ 4096 := hc n (List.mem_cons_self n rest)
    have hrest : ∀ m ∈ rest, m ≤ 4096 := fun m hm =>
      hc m (List.mem_cons_of_mem n hm)
    rw [read_fd_loop]
    have hcap0 : capacity ≠ 0 := by omega
    by_cases hg : total + 4096 > capacity
    · simp only [hg, if_true, hcap0, if_false]
      by_cases hd : capacity * 2 > max_size
      · simp only [hd, if_true]
        exact le_trans h1 h2
      · simp only [hd, if_false]
        by_cases hn0 : n > 0
        · simp only [hn0, if_true]
          exact ih (total + n) (capacity * 2) hrest (by omega)
            (by omega) (by omega)
        · simp only [hn0, if_false]
          exact le_trans h1 h2
    · simp only [hg, if_false]
      by_cases hn0 : n > 0
      · simp only [hn0, if_true]
        exact ih (total + n) capacity hrest (by omega) h2 h3
      · simp only [hn0, if_false]
        exact le_trans h1 h2

theorem read_fd_with_timeout_le (chunks : List Nat) (max_size : Nat)
    (hc : ∀ n ∈ chunks, n ≤ 4096) (hm : 4096 ≤ max_size) :
    read_fd_with_timeout chunks max_size ≤ max_size := by
  cases chunks with
  | nil => simp [read_fd_with_timeout, read_fd_loop]
  | cons n rest =>
    have hn : n ≤ 4096 := hc n (List.mem_cons_self n rest)
    have hrest : ∀ m ∈ rest, m ≤ 4096 := fun m hm2 =>
      hc m (List.mem_cons_of_mem n hm2)
    rw [read_fd_with_timeout, read_fd_loop]
    have hg : 0 + 4096 > 0 := by omega
    simp only [hg, if_true]
    by_cases hd : 4096 > max_size
    · omega
    · simp only [if_pos rfl, hd, if_false]
      by_cases hn0 : n > 0
      · simp only [hn0, if_true]
        exact read_fd_loop_le max_size rest (0 + n) 4096 hrest (by omega) hm
          (by omega)
      · simp only [hn0, if_false]
        omega

/-! ## Shutdown cleanup shared by both daemons -/

/-- Claim C10: if opening the primary file fails, write_primary returns at
once: no file operation is performed, both files keep their on-disk state,
and in particular no seq update appears without its primary write. -/
theorem C10_open_failure_noop (openSeqOk : Bool) (data : List Nat) (n : Nat)
    (fs : FS) :
    write_primary_trace false openSeqOk data n = [] ∧
    runFS fs (write_primary_trace false openSeqOk data n) = fs := by
  constructor <;> simp [write_primary_trace, runFS]

/-! ## Claim C2: primary is written and closed before seq -/

/-- Claim C2: for every call to write_primary (with any outcome of the
two opens), the primary file is opened, written and closed before any
seq-file operation, and the seq file on disk never holds the new
sequence value while the primary file does not yet hold the payload. -/
theorem C2_publish_ordering (pOk sOk : Bool) (data : List Nat) (n : Nat)
    (fs : FS) (h : fs.seq ≠ some (seqContent n)) :
    publishOrderingSpec pOk sOk data n fs := by
  refine ⟨?_, ?_, ?_⟩
  · cases pOk with
    | false =>
      refine ⟨[], [], by simp [write_primary_trace], by simp, by simp, by simp⟩
    | true =>
      refine ⟨FileOp.openPrimary ::
          (if data.length > 0 then [FileOp.writePrim data] else []) ++
          [FileOp.closePrimary],
        (if sOk then [FileOp.openSeq, FileOp.writeSeq n, FileOp.closeSeq]
         else []), ?_, ?_, ?_, ?_⟩
      · simp [write_primary_trace]
      · intro op hop
        by_cases hd : data.length > 0 <;> simp [hd] at hop <;>
          rcases hop with rfl | rfl | rfl <;> rfl
      · intro op hop
        cases sOk <;> simp at hop
        rcases hop with rfl | rfl | rfl <;> rfl
      · intro _
        simp
  · intro fs2 hmem heq
    cases pOk with
    | false =>
      simp [write_primary_trace, statesOf] at hmem
      exact absurd (hmem ▸ heq) h
    | true =>
      cases sOk <;> cases data <;>
        simp [write_primary_trace, statesOf, applyOp] at hmem <;>
        rcases hmem with rfl | rfl | rfl | rfl | rfl | rfl <;>
        first
          | rfl
          | exact absurd heq h
  · intro hp hs
    subst hp; subst hs
    exact write_primary_fs_eq fs data n

/-- Concrete instantiation of C2_publish_ordering at a one-byte payload
and a fresh cache. -/
theorem C2_publish_ordering_witness :
    fsInit.seq ≠ some (seqContent 7) ∧
    publishOrderingSpec true true [104] 7 fsInit :=
  ⟨by decide, C2_publish_ordering true true [104] 7 fsInit (by decide)⟩

/-! ## Claim C3: payload size caps -/

set_option maxRecDepth 4000 in
/-- Claim C3 counterexample: a 2 MiB copy-clipboard payload on standard
input is within the claimed 4 MiB clipboard cap, yet the X11 backend's
read_all_stdin truncates it to 1 MiB, refuting the claim that CLIPBOARD
payloads are bounded (only) at 4 MiB on every path. -/
theorem C3_counterexample :
    (List.replicate 512 4096).sum = 2097152 ∧
    2097152 ≤ MAX_CLIPBOARD_SIZE ∧
    x11_read_all_stdin (List.replicate 512 4096) = MAX_SELECTION_SIZE ∧
    MAX_SELECTION_SIZE < 2097152 := by
  refine ⟨by decide, by decide, by decide, by decide⟩

/-- Claim C3 as amended: all selection reads are bounded and truncate
silently, but the clipboard cap is 4 MiB only on the Wayland backend;
the X11 backend caps clipboard payloads at 1 MiB as well. -/
theorem C3_payload_caps (chunks : List Nat) (avail : Nat)
    (hc : ∀ n ∈ chunks, n ≤ 4096) : payloadCapsSpec chunks avail := by
  refine ⟨?_, ?_, ?_, ?_, ?_⟩
  · exact read_fd_with_timeout_le chunks MAX_SELECTION_SIZE hc (by decide)
  · exact read_fd_with_timeout_le chunks MAX_CLIPBOARD_SIZE hc (by decide)
  · exact read_all_stdin_loop_le MAX_CLIPBOARD_SIZE chunks 0 4096 hc
      (by decide) (by decide) (by decide)
  · exact read_all_stdin_loop_le MAX_SELECTION_SIZE chunks 0 4096 hc
      (by decide) (by decide) (by decide)
  · simp [x11_get_selection_len, MAX_SELECTION_SIZE]

/-- Concrete instantiation of C3_payload_caps at a single full read. -/
theorem C3_payload_caps_witness :
    (∀ n ∈ [4096], n ≤ 4096) ∧ payloadCapsSpec [4096] 2097152 :=
  ⟨by decide, C3_payload_caps [4096] 2097152 (by decide)⟩

/-! ## Claim C9: clean shutdown removes all three cache files -/

/-- Claim C9: whatever events either daemon processed, once the event
loop returns the shutdown path unlinks primary, seq and monitor.pid, so
none of the three files exists when the process exits. -/
theorem C9_clean_shutdown_unlinks (T pid : Nat)
    (startupRead : Option (List Nat)) (xevents : List X11.XEvent)
    (wevents : List WL.DaemonEvent) :
    ((X11.run_daemon T pid startupRead xevents).2.primary = none ∧
     (X11.run_daemon T pid startupRead xevents).2.seq = none ∧
     (X11.run_daemon T pid startupRead xevents).2.pid = none) ∧
    ((WL.run_daemon T pid wevents).fs.primary = none ∧
     (WL.run_daemon T pid wevents).fs.seq = none ∧
     (WL.run_daemon T pid wevents).fs.pid = none) :=
  ⟨⟨rfl, rfl, rfl⟩, ⟨rfl, rfl, rfl⟩⟩

/-! ## Claim C8: at most one live offer tracked per device -/

theorem handle_selection_offer_current (t : OfferTrack) (ev : Option Nat) :
    (handle_selection_offer t ev).2.current = ev := by
  cases hc : t.current with
  | none => simp [handle_selection_offer, hc]
  | some c =>
    by_cases he : ev = some c <;> simp [handle_selection_offer, hc, he]

theorem handle_selection_offer_destroyed (t : OfferTrack) (ev : Option Nat)
    (x : Nat) (hx : x ∈ (handle_selection_offer t ev).2.destroyed) :
    x ∈ t.destroyed ∨ t.current = some x := by
  cases hc : t.current with
  | none =>
    simp [handle_selection_offer, hc] at hx
    exact Or.inl hx
  | some c =>
    by_cases he : ev = some c
    · simp [handle_selection_offer, hc, he] at hx
      exact Or.inl hx
    · have he2 : ev ≠ some c := he
      simp [handle_selection_offer, hc, he2, List.mem_cons] at hx
      rcases hx with hx | hx
      · right
        rw [hx]
      · exact Or.inl hx

theorem handle_selection_offer_preserves (t : OfferTrack) (ev : Option Nat)
    (o : Nat) (h : t.current = some o ∨ o ∈ t.destroyed) :
    (handle_selection_offer t ev).2.current = some o ∨
      o ∈ (handle_selection_offer t ev).2.destroyed := by
  rcases h with h | h
  · by_cases he : ev = some o
    · left
      rw [handle_selection_offer_current, he]
    · right
      have he2 : ev ≠ some o := he
      simp [handle_selection_offer, h, he2, List.mem_cons]
  · right
    cases hc : t.current with
    | none => simpa [handle_selection_offer, hc] using h
    | some c =>
      by_cases he : ev = some c <;>
        simp [handle_selection_offer, hc, he, List.mem_cons] <;>
        tauto

theorem run_selection_from_cons (t : OfferTrack) (ev : Option Nat)
    (rest : List (Option Nat)) :
    run_selection_from t (ev :: rest) =
      run_selection_from (handle_selection_offer t ev).2 rest := rfl

theorem run_selection_from_tracked (events : List (Option Nat))
    (t : OfferTrack) (o : Nat) (h : t.current = some o ∨ o ∈ t.destroyed) :
    (run_selection_from t events).current = some o ∨
      o ∈ (run_selection_from t events).destroyed := by
  induction events generalizing t with
  | nil => simpa [run_selection_from] using h
  | cons ev rest ih =>
    rw [run_selection_from_cons]
    exact ih _ (handle_selection_offer_preserves t ev o h)

theorem run_selection_from_inv (events : List (Option Nat)) (t : OfferTrack)
    (hnd : (events.filterMap id).Nodup)
    (hfresh : ∀ o : Nat, some o ∈ events → o ∉ t.destroyed ∧ t.current ≠ some o)
    (hinv : ∀ c, t.current = some c → c ∉ t.destroyed) :
    (∀ c, (run_selection_from t events).current = some c →
       c ∉ (run_selection_from t events).destroyed) ∧
    (∀ o : Nat, some o ∈ events →
       (run_selection_from t events).current = some o ∨
       o ∈ (run_selection_from t events).destroyed) := by
  induction events generalizing t with
  | nil =>
    constructor
    · simpa [run_selection_from] using hinv
    · simp
  | cons ev rest ih =>
    rw [run_selection_from_cons]
    have hcur : (handle_selection_offer t ev).2.current = ev :=
      handle_selection_offer_current t ev
    have hnd2 : (rest.filterMap id).Nodup := by
      cases ev with
      | none => simpa using hnd
      | some a =>
        simp at hnd
        exact hnd.2
    have hfresh2 : ∀ o : Nat, some o ∈ rest →
        o ∉ (handle_selection_offer t ev).2.destroyed ∧
        (handle_selection_offer t ev).2.current ≠ some o := by
      intro o ho
      have hmem : some o ∈ ev :: rest := List.mem_cons_of_mem ev ho
      refine ⟨?_, ?_⟩
      · intro hcontra
        rcases handle_selection_offer_destroyed t ev o hcontra with h1 | h1
        · exact (hfresh o hmem).1 h1
        · exact (hfresh o hmem).2 h1
      · rw [hcur]
        cases ev with
        | none => simp
        | some a =>
          simp at hnd
          intro hcontra
          have ha : a = o := Option.some.inj hcontra
          rw [ha] at hnd
          exact hnd.1 ho
    have hinv2 : ∀ c, (handle_selection_offer t ev).2.current = some c →
        c ∉ (handle_selection_offer t ev).2.destroyed := by
      intro c hc hcontra
      rw [hcur] at hc
      have hmem : some c ∈ ev :: rest := by
        rw [hc]
        exact List.mem_cons_self (some c) rest
      rcases handle_selection_offer_destroyed t ev c hcontra with h1 | h1
      · exact (hfresh c hmem).1 h1
      · exact (hfresh c hmem).2 h1
    refine ⟨(ih _ hnd2 hfresh2 hinv2).1, ?_⟩
    intro o ho
    rcases List.mem_cons.mp ho with heq | ho2
    · refine run_selection_from_tracked rest _ o (Or.inl ?_)
      rw [hcur, ← heq]
    · exact (ih _ hnd2 hfresh2 hinv2).2 o ho2

/-- Claim C8: each device of the Wayland daemon tracks at most one live
selection offer, and on a selection event delivering a different offer
the previously tracked offer is destroyed before the new one becomes
current. -/
theorem C8_offer_tracking (events : List (Option Nat))
    (hnd : (events.filterMap id).Nodup) : offerTrackingSpec events := by
  have hrun := run_selection_from_inv events { current := none, destroyed := [] }
    hnd (by intro o _; exact ⟨by simp, by simp⟩) (by intro c hc; simp at hc)
  refine ⟨hrun.1, hrun.2, ?_⟩
  intro t ev
  cases hc : t.current with
  | none =>
    left
    simp [handle_selection_offer, hc]
  | some c =>
    by_cases he : ev = some c
    · left
      simp [handle_selection_offer, hc, he]
    · right
      exact ⟨c, rfl, he, by simp [handle_selection_offer, hc, he]⟩

/-- Concrete instantiation of C8_offer_tracking at three events: two
distinct offers followed by a cleared selection. -/
theorem C8_offer_tracking_witness :
    (([some 1, some 2, none] : List (Option Nat)).filterMap id).Nodup ∧
    offerTrackingSpec [some 1, some 2, none] :=
  ⟨by decide, C8_offer_tracking [some 1, some 2, none] (by decide)⟩

/-! ## Claim C1: rule R, re-selection of identical content -/

theorem wl_offer_replace_preserves (s : WL.State) (offer : Option Nat) :
    (WL.offer_replace s offer).fs = s.fs ∧
    (WL.offer_replace s offer).seq_counter = s.seq_counter ∧
    (WL.offer_replace s offer).last_known_content = s.last_known_content ∧
    (WL.offer_replace s offer).ps_has_text = s.ps_has_text := by
  cases hc : s.current_ps_offer with
  | none => simp [WL.offer_replace, hc]
  | some c => by_cases he : offer = some c <;> simp [WL.offer_replace, hc, he]

theorem wl_ps_handle_identical (s : WL.State) (a : Nat)
    (r : Option (List Nat)) (h2 : r = s.last_known_content) :
    (WL.ps_device_handle_selection s (some a) true r).fs = s.fs ∧
    (WL.ps_device_handle_selection s (some a) true r).seq_counter =
      s.seq_counter + 1 := by
  cases hc : s.current_ps_offer with
  | none =>
    constructor <;>
      simp [WL.ps_device_handle_selection, WL.offer_replace, hc, h2]
  | some c =>
    by_cases he : (some a : Option Nat) = some c <;> constructor <;>
      simp [WL.ps_device_handle_selection, WL.offer_replace, hc, he, h2]

/-- Claim C1 counterexample: in the Wayland daemon, a PRIMARY selection
event whose bytes are identical to the last published content does not
publish.  From a state holding published content [104, 105], the
selection handler leaves both cache files untouched (the counter is
bumped in memory only), so the seq file keeps its old value instead of
gaining a new one as the claim requires. -/
theorem C1_counterexample :
    (WL.ps_device_handle_selection c1State (some 2) true
        (some [104, 105])).fs = c1State.fs ∧
    (WL.ps_device_handle_selection c1State (some 2) true
        (some [104, 105])).seq_counter = c1State.seq_counter + 1 := by
  constructor <;> rfl

/-- Claim C1 as amended: on the X11 path every event increments and
publishes even for identical bytes; on the Wayland path the handler
only increments for identical bytes, and the unconditional
increment-and-publish (which makes re-selection of identical text yield
a new published seq) is performed by the poll-timeout re-read instead. -/
theorem C1_rule_R_amended : reselectionSpec := by
  refine ⟨?_, ?_, ?_⟩
  · intro r seq fs
    refine ⟨rfl, ?_, ?_⟩ <;>
      simp [X11.check_and_update_primary, write_primary_fs_eq]
  · intro s r h1 h2
    have hcond : ¬ (s.current_ps_offer = none ∨ s.ps_has_text = false) := by
      rintro (h | h)
      · rw [h] at h1
        exact Bool.noConfusion h1
      · rw [h2] at h
        exact Bool.noConfusion h
    refine ⟨?_, ?_, ?_⟩ <;>
      simp [WL.check_and_update_primary, hcond, write_primary_fs_eq]
  · intro s a r h2
    exact wl_ps_handle_identical s a r h2

/-- Concrete instantiation of the hypotheses of C1_rule_R_amended. -/
theorem C1_rule_R_amended_witness :
    (some [104, 105] : Option (List Nat)) = c1State.last_known_content ∧
    ((WL.ps_device_handle_selection c1State (some 9) true
        (some [104, 105])).fs = c1State.fs ∧
     (WL.ps_device_handle_selection c1State (some 9) true
        (some [104, 105])).seq_counter = c1State.seq_counter + 1) :=
  ⟨rfl, C1_rule_R_amended.2.2 c1State 9 (some [104, 105]) rfl⟩

/-! ## Claim C4: one-shot exit codes -/

/-- Claim C4 counterexample: immediately after clear-primary the Wayland
one-shot obtains no selection bytes and writes nothing to standard
output, yet exits with code 0, not 1. -/
theorem C4_counterexample :
    (WL.run_oneshot c4Env 5 fsInit).1 = 0 ∧
    (WL.run_oneshot c4Env 5 fsInit).2.1 = [] := by
  constructor <;> rfl

/-- Claim C4 as amended: the claimed behavior holds on the X11 backend
only; the Wayland one-shot exits 0 whenever connection and globals are
available, even with no selection bytes (still writing no output). -/
theorem C4_oneshot_amended : oneshotExitSpec := by
  refine ⟨?_, ⟨rfl, rfl⟩, ?_, ?_⟩
  · intro d hd
    cases d with
    | nil => exact absurd rfl hd
    | cons a l => simp [X11.run_oneshot]
  · intro env seq0 fs h1 h2 h3
    by_cases hb : (env.offer_present && env.has_text) = true
    · cases hr : env.readResult with
      | some d =>
        by_cases hd : d.length > 0 <;>
          simp [WL.run_oneshot, h1, h2, h3, hb, hr, hd]
      | none => simp [WL.run_oneshot, h1, h2, h3, hb, hr]
    · have hb2 : (env.offer_present && env.has_text) = false := by
        revert hb
        cases env.offer_present && env.has_text <;> simp
      simp [WL.run_oneshot, h1, h2, h3, hb2]
  · intro env seq0 fs h
    by_cases h1 : env.connect_ok = false
    · simp [WL.run_oneshot, h1]
    · by_cases hg : env.have_ps_manager = false ∨ env.have_seat = false
      · simp [WL.run_oneshot, h1, hg]
      · have hb : (env.offer_present && env.has_text) = false := by
          rw [h]
          rfl
        simp [WL.run_oneshot, h1, hg, hb]

/-- Concrete instantiation of the hypotheses of C4_oneshot_amended. -/
theorem C4_oneshot_amended_witness :
    ([104] : List Nat) ≠ [] ∧
    X11.run_oneshot (some [104]) = (0, [104]) ∧
    c4Env.connect_ok = true ∧
    (WL.run_oneshot c4Env 11 fsInit).1 = 0 ∧
    c4Env.offer_present = false ∧
    (WL.run_oneshot c4Env 11 fsInit).2.1 = [] :=
  ⟨by decide, C4_oneshot_amended.1 [104] (by decide), rfl,
   C4_oneshot_amended.2.2.1 c4Env 11 fsInit rfl rfl rfl, rfl,
   C4_oneshot_amended.2.2.2 c4Env 11 fsInit rfl⟩

/-! ## Claim C5: copy-clipboard child inactivity timeout (impl-x11) -/

theorem x11_copy_drain_served (evs : List X11.CopyEvent) (s : X11.CopyState)
    (h : s.selection_served = true) :
    (X11.copy_drain evs s).selection_served = true ∧
    (X11.copy_drain evs s).timeout_count ≤ s.timeout_count := by
  induction evs generalizing s with
  | nil => exact ⟨h, le_refl _⟩
  | cons ev rest ih =>
    by_cases hr : s.running = false
    · have hstep : X11.copy_drain (ev :: rest) s = s := by
        simp [X11.copy_drain, hr]
      rw [hstep]
      exact ⟨h, le_refl _⟩
    · cases ev with
      | request =>
        have hstep : X11.copy_drain (X11.CopyEvent.request :: rest) s =
            X11.copy_drain rest
              { s with selection_served := true, timeout_count := 0 } := by
          simp [X11.copy_drain, hr]
        rw [hstep]
        have h2 := ih { s with selection_served := true, timeout_count := 0 }
          rfl
        exact ⟨h2.1, le_trans h2.2 (Nat.zero_le _)⟩
      | selClear =>
        have hstep : X11.copy_drain (X11.CopyEvent.selClear :: rest) s =
            { s with running := false } := by
          simp [X11.copy_drain, hr]
        rw [hstep]
        exact ⟨h, le_refl _⟩
      | otherEvent =>
        have hstep : X11.copy_drain (X11.CopyEvent.otherEvent :: rest) s =
            X11.copy_drain rest s := by
          simp [X11.copy_drain, hr]
        rw [hstep]
        exact ih s h

theorem x11_copy_loop_served_no_timeout (sched : List (List X11.CopyEvent))
    (s : X11.CopyState) (h : s.selection_served = true)
    (h2 : s.timeout_count < 500) :
    (X11.copy_loop sched s).2 ≠ X11.CopyExit.timedOut := by
  induction sched generalizing s with
  | nil =>
    by_cases hr : s.running = false <;> simp [X11.copy_loop, hr, h2]
  | cons evs rest ih =>
    by_cases hr : s.running = false
    · simp [X11.copy_loop, hr]
    · have hd := x11_copy_drain_served evs s h
      by_cases hr2 : (X11.copy_drain evs s).running = false
      · simp [X11.copy_loop, hr, h2, hr2]
      · simp [X11.copy_loop, hr, h2, hr2, hd.1]
        exact ih _ hd.1 (lt_of_le_of_lt hd.2 h2)

theorem x11_copy_loop_idle_times_out (n : Nat) (s : X11.CopyState)
    (hr : s.running = true) (hs : s.selection_served = false)
    (h1 : 500 ≤ s.timeout_count + n) (h2 : s.timeout_count ≤ 500) :
    (X11.copy_loop (List.replicate n []) s).2 = X11.CopyExit.timedOut := by
  induction n generalizing s with
  | zero =>
    have h3 : s.timeout_count = 500 := by omega
    simp [X11.copy_loop, hr, h3]
  | succ n ih =>
    rw [List.replicate_succ]
    by_cases hc : s.timeout_count < 500
    · have hdr : X11.copy_drain [] s = s := rfl
      simp [X11.copy_loop, hr, hc, hdr, hs]
      refine ih { running := true, timeout_count := s.timeout_count + 1, selection_served := false } rfl rfl ?_ ?_ <;> simp <;> omega
    · simp [X11.copy_loop, hr, hc]

set_option maxRecDepth 8000 in
/-- Claim C5 counterexample: the impl-x11 copy-clipboard child serves
one request in its first iteration and then sits through 600 further
inactive 100 ms iterations (60 s of inactivity after the last served
request) without timing out: the loop is still running with
timeout_count frozen at 0, because timeout_count is only incremented
while selection_served is false. -/
theorem C5_counterexample :
    (X11.copy_loop ([X11.CopyEvent.request] :: List.replicate 600 [])
        X11.copy_init).2 = X11.CopyExit.scheduleEnd ∧
    (X11.copy_loop ([X11.CopyEvent.request] :: List.replicate 600 [])
        X11.copy_init).1.running = true ∧
    (X11.copy_loop ([X11.CopyEvent.request] :: List.replicate 600 [])
        X11.copy_init).1.timeout_count = 0 := by
  decide

/-- Claim C5 as amended: the about-50-second inactivity bound applies
only before the first served request; after a request has been served
the impl-x11 child's lifetime is bounded only by SelectionClear or a
signal, not by the inactivity counter. -/
theorem C5_copy_timeout_amended : copyTimeoutSpec := by
  constructor
  · intro sched s h h2
    exact x11_copy_loop_served_no_timeout sched s h h2
  · intro n hn
    exact x11_copy_loop_idle_times_out n X11.copy_init rfl rfl
      (by simpa [X11.copy_init] using hn) (by simp [X11.copy_init])

/-- Concrete instantiation of the hypotheses of C5_copy_timeout_amended:
a child that has served a request never times out on an empty schedule,
and an unserved child times out after exactly 500 idle iterations. -/
theorem C5_copy_timeout_amended_witness :
    ({ running := true, timeout_count := 0, selection_served := true } :
        X11.CopyState).selection_served = true ∧
    (X11.copy_loop [[]]
        { running := true, timeout_count := 0, selection_served := true }).2 ≠
      X11.CopyExit.timedOut ∧
    (X11.copy_loop (List.replicate 500 []) X11.copy_init).2 =
      X11.CopyExit.timedOut :=
  ⟨rfl,
   C5_copy_timeout_amended.1 [[]]
     { running := true, timeout_count := 0, selection_served := true }
     rfl (by decide),
   C5_copy_timeout_amended.2 500 (by decide)⟩

/-! ## Claim C6: seq value after the first selection event -/

/-- Claim C6 counterexample: start the X11 daemon with seed 1000 and
deliver exactly one external PRIMARY event carrying "hello".  The cache
then holds "hello", but the seq file reads 1002 = seed + 2 (the
daemon's pre-loop refresh publish consumed seed + 1), not the claimed
seed + 1. -/
theorem C6_counterexample :
    (X11.run_daemon_loop 1000 42 none
        [X11.XEvent.primaryNotify (some helloBytes)]).2.primary =
      some helloBytes ∧
    (X11.run_daemon_loop 1000 42 none
        [X11.XEvent.primaryNotify (some helloBytes)]).2.seq =
      some (seqContent 1002) ∧
    seqContent 1002 ≠ seqContent 1001 := by
  refine ⟨rfl, rfl, by decide⟩

/-- Claim C6 as amended: after startup (seed T, initial empty publish)
and exactly one PRIMARY event delivering "hello", the primary file
holds exactly "hello" but the seq file holds T + 2, not T + 1, on both
backends. -/
theorem C6_first_event_amended : firstEventSpec := by
  constructor
  · intro T pid r0
    exact ⟨rfl, rfl, rfl⟩
  · intro T pid
    exact ⟨rfl, rfl, rfl⟩

/-! ## Claim C7: copy-clipboard exit codes -/

set_option maxRecDepth 8000 in
/-- Claim C7 counterexample: an oversized standard input (4 MiB + 4 KiB)
does not make copy-clipboard exit 1: the Wayland backend truncates it to
the cap and proceeds, the parent exiting 0 after forking the serving
child. -/
theorem C7_counterexample :
    (List.replicate 1025 4096).sum = 4198400 ∧
    MAX_CLIPBOARD_SIZE < 4198400 ∧
    WL.run_copy_clipboard (List.replicate 1025 4096) true true true =
      (0, true) := by
  refine ⟨by decide, by decide, by decide⟩

/-- Claim C7 as amended: copy-clipboard exits 1 on empty standard input
and the parent exits 0 immediately after forking on success, but
oversized input is truncated to the cap and treated as success, not
rejected with exit 1. -/
theorem C7_copy_exit_amended : copyCliSpec := by
  refine ⟨?_, ?_, ?_, ?_⟩
  · intro chunks c g f h
    simp [WL.run_copy_clipboard, h]
  · intro chunks h
    simp [WL.run_copy_clipboard, h]
  · intro chunks o f h
    simp [X11.run_copy_clipboard, h]
  · intro chunks h
    simp [X11.run_copy_clipboard, h]

/-- Concrete instantiation of the hypotheses of C7_copy_exit_amended:
empty input exits 1 with no child; a five-byte input forks and the
parent exits 0. -/
theorem C7_copy_exit_amended_witness :
    wl_read_all_stdin [] = 0 ∧
    WL.run_copy_clipboard [] true true true = (1, false) ∧
    wl_read_all_stdin [5] ≠ 0 ∧
    WL.run_copy_clipboard [5] true true true = (0, true) ∧
    x11_read_all_stdin [] = 0 ∧
    X11.run_copy_clipboard [] true true = (1, false) ∧
    x11_read_all_stdin [5] ≠ 0 ∧
    X11.run_copy_clipboard [5] true true = (0, true) :=
  ⟨by decide, C7_copy_exit_amended.1 [] true true true (by decide),
   by decide, C7_copy_exit_amended.2.1 [5] (by decide),
   by decide, C7_copy_exit_amended.2.2.1 [] true true (by decide),
   by decide, C7_copy_exit_amended.2.2.2 [5] (by decide)⟩
